import Mathlib

/-!
# Verification of the egobox Gaussian-process core

Shallow embedding of `src/gaussian_process.rs` (GP trainer / predictor) and
`moe/src/parameters.rs` (mixture-of-experts parameter validation).

Modelling conventions:

* `f64` values are modelled as rationals `ℚ` (exact real-number semantics;
  rounding is out of scope).
* The external matrix/BLAS library (ndarray-linalg: Cholesky, QR, SVD,
  triangular solves) and the transcendental functions (`exp`, `powf`,
  `log10`, `sqrt`) are external collaborators.  They are modelled as an
  abstract record of oracle functions `LinAlgLib`; fallible library calls
  return `Option`.
* Rust `Result`-returning functions become `Outcome`-returning functions:
  `.ok` for `Ok`, `.err` for `Err`, and `.panic` for a Rust panic
  (`unwrap()` on a library failure, out-of-bounds indexing, or an ndarray
  shape mismatch).
* `ndarray` matrices of statically known shape become Mathlib `Matrix`
  values over `Fin`-indexed types.
-/

/-- Modelled from the spec: the error enumeration of the GP crate.
`LikelihoodComputationError` is taken verbatim from
`src/gaussian_process.rs`; `InvalidInput` and `LinalgError` model the
spec §7 kinds *InvalidInput* and *LinAlgFailure* (the latter is produced by
the `?` conversion of an ndarray-linalg failure). -/
inductive EgoboxError where
  | InvalidInput (msg : String)
  | LinalgError
  | LikelihoodComputationError (msg : String)
  deriving DecidableEq

/-- The constructor tag of an `EgoboxError`, forgetting the message payload.
Two errors are "of the same kind" when their tags agree. -/
inductive EgoboxErrorKind where
  | invalidInput
  | linalg
  | likelihoodComputation
  deriving DecidableEq

/-- Project an error to its kind. -/
def EgoboxError.kind : EgoboxError → EgoboxErrorKind
  | .InvalidInput _ => .invalidInput
  | .LinalgError => .linalg
  | .LikelihoodComputationError _ => .likelihoodComputation

/-- Outcome of running a Rust function returning `Result<α, EgoboxError>`:
it can return `Ok`, return `Err`, or panic. -/
inductive Outcome (α : Type) where
  | panic : Outcome α
  | err : EgoboxError → Outcome α
  | ok : α → Outcome α
  deriving DecidableEq

/-- Sequencing: `.ok` continues, `.err` and `.panic` propagate. -/
def Outcome.bind {α β : Type} : Outcome α → (α → Outcome β) → Outcome β
  | .ok a, f => f a
  | .err e, _ => .err e
  | .panic, _ => .panic

/-- Returns `true` exactly on `.err`. -/
def Outcome.isErr {α : Type} : Outcome α → Bool
  | .err _ => true
  | _ => false

/-- A `?` on a library call: `Ok` passes through, a library failure is
converted (Rust `From`) into the linear-algebra error kind. -/
def ofLinalg {α : Type} : Option α → Outcome α
  | some a => .ok a
  | none => .err .LinalgError

/-- An `.unwrap()` on a library call: a library failure panics. -/
def unwrapLib {α : Type} : Option α → Outcome α
  | some a => .ok a
  | none => .panic

/-- The external collaborators of `gaussian_process.rs`, gathered in one
record: the fallible matrix factorizations and triangular solves of
ndarray-linalg, and the scalar math functions of `f64`.  All are abstract:
theorems quantify over every possible library behaviour, and concrete
witnesses instantiate them. -/
structure LinAlgLib where
  /-- Models `f64::exp` (used by the squared-exponential kernel). -/
  exp : ℚ → ℚ
  /-- Models `f64::powf` with a (possibly fractional) exponent.  A `powf` whose
  exponent is the literal `2.0` squares its argument and is translated
  directly as `(·)^2`. -/
  powf : ℚ → ℚ → ℚ
  /-- Models `f64::log10`. -/
  log10 : ℚ → ℚ
  /-- Models `f64::sqrt` (used by normalization). -/
  sqrt : ℚ → ℚ
  /-- Models `cholesky(UPLO::Lower)`: lower Cholesky factor, fails when not
  positive definite. -/
  cholesky : (a : ℕ) → Matrix (Fin a) (Fin a) ℚ → Option (Matrix (Fin a) (Fin a) ℚ)
  /-- Models `solve_triangular(UPLO::Lower, Diag::NonUnit, ·)`. -/
  solveLower : (a b : ℕ) → Matrix (Fin a) (Fin a) ℚ → Matrix (Fin a) (Fin b) ℚ →
    Option (Matrix (Fin a) (Fin b) ℚ)
  /-- Models `solve_triangular(UPLO::Upper, Diag::NonUnit, ·)`. -/
  solveUpper : (a b : ℕ) → Matrix (Fin a) (Fin a) ℚ → Matrix (Fin a) (Fin b) ℚ →
    Option (Matrix (Fin a) (Fin b) ℚ)
  /-- Thin QR decomposition: `(a, b)`-matrix into `Q : (a, b)` and
  `R : (b, b)` upper triangular. -/
  qr : (a b : ℕ) → Matrix (Fin a) (Fin b) ℚ →
    Option (Matrix (Fin a) (Fin b) ℚ × Matrix (Fin b) (Fin b) ℚ)
  /-- Models `svd(false, false)`: the 1-D array of singular values. -/
  svd : (a b : ℕ) → Matrix (Fin a) (Fin b) ℚ → Option (List ℚ)

/-- Modelled from the spec: §3 *Normalized matrix* — the triple
`(data, mean, std)` with `data = (raw − mean)/std` columnwise. -/
structure NormalizedMatrix (n c : ℕ) where
  data : Matrix (Fin n) (Fin c) ℚ
  mean : Fin c → ℚ
  std : Fin c → ℚ
  deriving DecidableEq

/-- Modelled from the spec: construction of a `NormalizedMatrix` — columnwise
mean and standard deviation, a zero std component replaced by 1 to avoid
division by zero (§3). -/
def NormalizedMatrix.make {n c : ℕ} (L : LinAlgLib) (x : Matrix (Fin n) (Fin c) ℚ) :
    NormalizedMatrix n c :=
  let mean : Fin c → ℚ := fun j => (∑ i, x i j) / (n : ℚ)
  let std : Fin c → ℚ := fun j =>
    let s := L.sqrt ((∑ i, (x i j - mean j) ^ 2) / (n : ℚ))
    if s = 0 then 1 else s
  { data := fun i j => (x i j - mean j) / std j, mean := mean, std := std }

/-- Modelled from the spec: §3 *Distance matrix* — for each upper-triangle
pair `i < j` (in a fixed order), the index pair together with the row of
componentwise absolute differences `|x_i − x_j|`.  The Rust struct stores
the rows in the array `d` aligned with the index array `d_indices`; here the
two aligned arrays are one list of pairs.  `n_obs` and `n_features` are the
type indices `n` and `d`. -/
structure DistanceMatrix (n d : ℕ) where
  pairs : List ((Fin n × Fin n) × (Fin d → ℚ))
  deriving DecidableEq

/-- Modelled from the spec: building the distance matrix of a training set,
rows ordered by `i`, then `j > i`. -/
def DistanceMatrix.make {n d : ℕ} (x : Matrix (Fin n) (Fin d) ℚ) : DistanceMatrix n d :=
  { pairs :=
      (List.finRange n).flatMap fun i =>
        ((List.finRange n).filter (fun j => i < j)).map fun j =>
          ((i, j), fun l => |x i l - x j l|) }

/-- Modelled from the spec: §4.1, the squared-exponential kernel value of one
row of a difference matrix, `k_θ(Δ) = exp(−Σⱼ θⱼ·Δⱼ²)`. -/
def kernelRow {d : ℕ} (L : LinAlgLib) (theta : Fin d → ℚ) (row : Fin d → ℚ) : ℚ :=
  L.exp (-(∑ j, theta j * (row j) ^ 2))

/-- Modelled from the spec: §4.1 `squared_exponential` — the kernel applied
rowwise to a difference matrix, returning a column of correlations. -/
def squared_exponential {a d : ℕ} (L : LinAlgLib) (theta : Fin d → ℚ)
    (dx : Matrix (Fin a) (Fin d) ℚ) : Matrix (Fin a) (Fin 1) ℚ :=
  fun i _ => kernelRow L theta (dx i)

/-- Struct `GpInnerParams`: the cached inner fit of a trained GP. -/
structure GpInnerParams (n p k : ℕ) where
  /-- Gaussian process variance (per output dimension). -/
  sigma2 : Fin k → ℚ
  /-- Generalized least-squares regression weights. -/
  beta : Matrix (Fin p) (Fin k) ℚ
  /-- Gaussian process weights. -/
  gamma : Matrix (Fin n) (Fin k) ℚ
  /-- Cholesky decomposition of the correlation matrix R. -/
  r_chol : Matrix (Fin n) (Fin n) ℚ
  /-- Solution of `L_r · Ft = F`. -/
  ft : Matrix (Fin n) (Fin p) ℚ
  /-- R upper triangle of the QR decomposition of `Ft`. -/
  ft_qr_r : Matrix (Fin p) (Fin p) ℚ
  deriving DecidableEq

/-- The value `10.0 * f64::EPSILON`, the nugget regularizing the correlation matrix. -/
def nugget : ℚ := 10 * (1 / 2 ^ 52)

/-- One in-place symmetric matrix-entry write. -/
def updEntry {a : ℕ} (M : Matrix (Fin a) (Fin a) ℚ) (i j : Fin a) (v : ℚ) :
    Matrix (Fin a) (Fin a) ℚ :=
  fun i' j' => if i' = i ∧ j' = j then v else M i' j'

/-- The regularized correlation matrix of `reduced_likelihood`: start from
`eye(n).mapv(v ↦ v + v·nugget)` (so `1 + nugget` on the diagonal, `0` off it)
and, for each distance-matrix row with index pair `(i, j)`, write the kernel
value `r[[row, 0]]` at `[i, j]` and `[j, i]`.  The kernel column `r` is
`squared_exponential(theta, d)`; its rows are recomputed in the fold since
the pair list aligns indices and difference rows. -/
def buildCorrMatrix {n d : ℕ} (L : LinAlgLib) (theta : Fin d → ℚ)
    (xd : DistanceMatrix n d) : Matrix (Fin n) (Fin n) ℚ :=
  xd.pairs.foldl
    (fun m pr =>
      let v := kernelRow L theta pr.2
      updEntry (updEntry m pr.1.1 pr.1.2 v) pr.1.2 pr.1.1 v)
    (fun i j => if i = j then 1 + nugget else 0)

/-- Function `reduced_likelihood(theta, fx, x_distances, ytrain)` from
`src/gaussian_process.rs` (lines 249–315).

* `r_mx` is `buildCorrMatrix`;
* `r_chol ← r_mx.cholesky(Lower)?`;
* `ft ← r_chol.solve_triangular(Lower, fx).unwrap()`;
* `(ft_qr_q, ft_qr_r) ← ft.qr().unwrap()`;
* `sv_g ← ft_qr_r.svd(false,false).unwrap()`; the ratio
  `sv_g[len−1]/sv_g[0]` (out-of-bounds indexing on an empty array panics);
* if the ratio is `< 1e-10`: `sv_f ← fx.svd().unwrap()`, and
  `sv_f[0]/sv_f[len−1] > 1e15` decides between the two
  `LikelihoodComputationError` messages;
* otherwise the triangular-solve chain `yt`, `β`, `ρ`, `γ` (each `?`),
  then `det_R = ∏ diag(r_chol)^(2/n)` (via `powf`),
  `σ²ₖ = Σᵢ ρᵢₖ²/n` (the source's `powf(2.)` squares), and the value
  `−(Σₖ σ²ₖ)·det_R`; the returned `sigma2` is rescaled by `ytrain.std²`. -/
def reduced_likelihood {d n p k : ℕ} (L : LinAlgLib) (theta : Fin d → ℚ)
    (fx : Matrix (Fin n) (Fin p) ℚ) (x_distances : DistanceMatrix n d)
    (ytrain : NormalizedMatrix n k) : Outcome (ℚ × GpInnerParams n p k) :=
  let r_mx := buildCorrMatrix L theta x_distances
  Outcome.bind (ofLinalg (L.cholesky n r_mx)) fun r_chol =>
  Outcome.bind (unwrapLib (L.solveLower n p r_chol fx)) fun ft =>
  Outcome.bind (unwrapLib (L.qr n p ft)) fun ftqr =>
  Outcome.bind (unwrapLib (L.svd p p ftqr.2)) fun sv_g =>
  match sv_g with
  | [] => .panic
  | s0 :: srest =>
    let cond_ft_qr_r := srest.getLast?.getD s0 / s0
    if cond_ft_qr_r < 1e-10 then
      Outcome.bind (unwrapLib (L.svd n p fx)) fun sv_f =>
      match sv_f with
      | [] => .panic
      | f0 :: frest =>
        let cond_f_mx := f0 / frest.getLast?.getD f0
        if cond_f_mx > 1e15 then
          .err (.LikelihoodComputationError
            "F is too ill conditioned. Poor combination of regression model and observations.")
        else
          .err (.LikelihoodComputationError
            "ft is too ill conditioned, try another theta again")
    else
      Outcome.bind (ofLinalg (L.solveLower n k r_chol ytrain.data)) fun yt =>
      Outcome.bind (ofLinalg (L.solveUpper p k ftqr.2 (Matrix.transpose ftqr.1 * yt))) fun beta =>
      let rho := yt - ft * beta
      Outcome.bind (ofLinalg (L.solveUpper n k (Matrix.transpose r_chol) rho)) fun gamma =>
      let e2n : ℚ := 2 / (n : ℚ)
      let det_r : ℚ := ∏ i, L.powf (r_chol i i) e2n
      let sigma2 : Fin k → ℚ := fun j => (∑ i, (rho i j) ^ 2) / (n : ℚ)
      .ok (-(∑ j, sigma2 j) * det_r,
        { sigma2 := fun j => sigma2 j * (ytrain.std j) ^ 2
          beta := beta
          gamma := gamma
          r_chol := r_chol
          ft := ft
          ft_qr_r := ftqr.2 })

/-- Modelled from the spec: the `RegressionModel` trait of the absent
`src/utils.rs`, in dictionary-passing style: for a mean-model type `Mean`, the dictionary gives `eval` — the
regression basis (with `p` columns) evaluated on a matrix of points with
any number `m` of rows. -/
def RegressionEval (Mean : Type) (d p : ℕ) : Type :=
  Mean → (m : ℕ) → Matrix (Fin m) (Fin d) ℚ → Matrix (Fin m) (Fin p) ℚ

/-- Struct `GaussianProcess<Mean>`: `theta`, the regression mean model, the inner
parameters and the normalized training data.  The Rust type is generic over
`Mean: RegressionModel`; the trait dictionary (`RegressionEval`) is passed
to the operations that dispatch on it. -/
structure GaussianProcess (Mean : Type) (n d p k : ℕ) where
  /-- Parameter of the autocorrelation model. -/
  theta : Fin d → ℚ
  /-- The regression mean model. -/
  mean : Mean
  /-- Fitted inner parameters. -/
  inner_params : GpInnerParams n p k
  /-- Normalized training inputs. -/
  xtrain : NormalizedMatrix n d
  /-- Normalized training outputs. -/
  ytrain : NormalizedMatrix n k
  deriving DecidableEq

/-- Modelled from the spec: §4.1 regression basis `constant(x) = [1]` — a
single column of ones (`src/utils.rs` is not among the sources at hand). -/
def constant {m d : ℕ} (_x : Matrix (Fin m) (Fin d) ℚ) : Matrix (Fin m) (Fin 1) ℚ :=
  fun _ _ => 1

/-- Method `_compute_correlation` (lines 229–246): normalize the query points with
the training mean/std, stack for each query row `i` the block
`xtrain.data − xnorm[i]` into the `(nt·n_obs, n_features)` matrix `dx`,
apply `squared_exponential`, and reshape the resulting column to
`(n_obs, nt)`.  Row `i·nt + j` of `dx` is the difference row
`xtrain.data[j] − xnorm[i]`, so entry `(i, j)` of the reshaped result is the
kernel of that row — the form used here.  The caller has already ensured the
query width matches `d` (see the predictors). -/
def compute_correlation {Mean : Type} {n d p k m : ℕ} (L : LinAlgLib)
    (gp : GaussianProcess Mean n d p k) (x : Matrix (Fin m) (Fin d) ℚ) :
    Matrix (Fin m) (Fin n) ℚ :=
  let xnorm : Matrix (Fin m) (Fin d) ℚ :=
    fun i j => (x i j - gp.xtrain.mean j) / gp.xtrain.std j
  fun i j => kernelRow L gp.theta (fun l => gp.xtrain.data j l - xnorm i l)

/-- Reindex the columns of a matrix along an equality of widths (the
identity once the widths agree; a Rust query matrix has no static width). -/
def castCols {m a b : ℕ} (h : a = b) (x : Matrix (Fin m) (Fin a) ℚ) :
    Matrix (Fin m) (Fin b) ℚ :=
  fun i j => x i (Fin.cast h.symm j)

/-- Method `predict_values` (lines 188–196): correlation with the training set, the
mean basis at the raw query points, the scaled predictor
`y_ = f·β + corr·γ`, then elementwise `y_ * std_Y + mean_Y` (the length-`k`
`std`/`mean` rows broadcast over the `m` query rows).  A query whose column
count differs from the training width panics inside ndarray (shape
mismatch, first in `_compute_correlation`): there is no dimension check and
no error return. -/
def predict_values {Mean : Type} {n d p k m q : ℕ} (L : LinAlgLib)
    (ev : RegressionEval Mean d p) (gp : GaussianProcess Mean n d p k)
    (x : Matrix (Fin m) (Fin q) ℚ) : Outcome (Matrix (Fin m) (Fin k) ℚ) :=
  if h : q = d then
    let xc := castCols h x
    let corr := compute_correlation L gp xc
    let f := ev gp.mean m xc
    let y_ := f * gp.inner_params.beta + corr * gp.inner_params.gamma
    .ok (fun i j => y_ i j * gp.ytrain.std j + gp.ytrain.mean j)
  else .panic

/-- Method `predict_variances` (lines 198–227): with `corr` as above,
`rt ← solve_triangular(Lower, r_chol, corrᵀ).unwrap()`;
`lhs = ftᵀ·rt − constant(x)ᵀ` — note the hardcoded `constant` basis, whose
single row broadcasts over the `p` rows of `ftᵀ·rt`;
`u ← solve_triangular(Upper, ft_qr_rᵀ, lhs).unwrap()`;
`b = 1 − colSumSq(rt) + colSumSq(u)`; `mse = einsum("i,j->ji", σ², b)`
reshaped to `(m, 1)` — the reshape of the `(m, k)` einsum result only
succeeds when `k = 1`, otherwise ndarray panics; finally negatives are
clamped to `0`. -/
def predict_variances {Mean : Type} {n d p k m q : ℕ} (L : LinAlgLib)
    (gp : GaussianProcess Mean n d p k) (x : Matrix (Fin m) (Fin q) ℚ) :
    Outcome (Matrix (Fin m) (Fin 1) ℚ) :=
  if h : q = d then
    let xc := castCols h x
    let corr := compute_correlation L gp xc
    Outcome.bind (unwrapLib (L.solveLower n m gp.inner_params.r_chol (Matrix.transpose corr)))
      fun rt =>
    let lhs : Matrix (Fin p) (Fin m) ℚ :=
      fun i j => (Matrix.transpose gp.inner_params.ft * rt) i j - (Matrix.transpose (constant xc)) 0 j
    Outcome.bind (unwrapLib (L.solveUpper p m (Matrix.transpose gp.inner_params.ft_qr_r) lhs))
      fun u =>
    let b : Fin m → ℚ := fun j => 1 - (∑ i, rt i j * rt i j) + (∑ i, u i j * u i j)
    if hk : k = 1 then
      .ok (fun j _ =>
        let v := gp.inner_params.sigma2 (Fin.cast hk.symm 0) * b j
        if v < 0 then 0 else v)
    else .panic
  else .panic

/-- Follows the spec's words (§4.3 predict_mean): `ŷ = (F(x)·β +
r_θ(x,Xₜ)·γ)·std_Y + mean_Y`, with `r_θ(x,Xₜ)` computed by normalizing `x`
by `(mean_X, std_X)`, taking rowwise *absolute* differences against all
training rows, applying the kernel, and reshaping to `(m, n)`. -/
def spec_predict_mean {Mean : Type} {n d p k m : ℕ} (L : LinAlgLib)
    (ev : RegressionEval Mean d p) (gp : GaussianProcess Mean n d p k)
    (x : Matrix (Fin m) (Fin d) ℚ) : Matrix (Fin m) (Fin k) ℚ :=
  let xnorm : Matrix (Fin m) (Fin d) ℚ :=
    fun i j => (x i j - gp.xtrain.mean j) / gp.xtrain.std j
  let corr : Matrix (Fin m) (Fin n) ℚ :=
    fun i j => kernelRow L gp.theta (fun l => |xnorm i l - gp.xtrain.data j l|)
  let yhat := ev gp.mean m x * gp.inner_params.beta + corr * gp.inner_params.gamma
  fun i j => yhat i j * gp.ytrain.std j + gp.ytrain.mean j

/-- Follows the claim's words (C4): per-query variance
`σ²·(1 − colSumSq(rt) + colSumSq(u))` where `lhs = Ftᵀ·rt − F(x)ᵀ` is built
from the *GP's own* regression basis `F = gp.mean` (a `(p, m)` matrix, so an
ordinary subtraction), not from the hardcoded constant basis. -/
def claim_predict_variances {Mean : Type} {n d p m : ℕ} (L : LinAlgLib)
    (ev : RegressionEval Mean d p) (gp : GaussianProcess Mean n d p 1)
    (x : Matrix (Fin m) (Fin d) ℚ) : Outcome (Matrix (Fin m) (Fin 1) ℚ) :=
  let corr := compute_correlation L gp x
  Outcome.bind (unwrapLib (L.solveLower n m gp.inner_params.r_chol (Matrix.transpose corr)))
    fun rt =>
  let lhs : Matrix (Fin p) (Fin m) ℚ :=
    fun i j => (Matrix.transpose gp.inner_params.ft * rt) i j - (Matrix.transpose (ev gp.mean m x)) i j
  Outcome.bind (unwrapLib (L.solveUpper p m (Matrix.transpose gp.inner_params.ft_qr_r) lhs))
    fun u =>
  let b : Fin m → ℚ := fun j => 1 - (∑ i, rt i j * rt i j) + (∑ i, u i j * u i j)
  .ok (fun j _ =>
    let v := gp.inner_params.sigma2 0 * b j
    if v < 0 then 0 else v)

/-- An `f64` value handed back to the optimizer: finite, or `+∞`. -/
inductive F64Val where
  | fin : ℚ → F64Val
  | inf : F64Val
  deriving DecidableEq

/-- Struct `GpHyperParams<Mean>`: the starting `theta` and the mean model.  (The
`xtrain`/`ytrain` placeholder fields of the Rust struct are 1×1 defaults
never read by `fit`; they are omitted.) -/
structure GpHyperParams (Mean : Type) where
  theta : ℚ
  mean : Mean
  deriving DecidableEq

/-- The objective closure `objfn` of `fit` (lines 80–94): map the
log-space candidate through `base.powf` with `base = 10`, call
`reduced_likelihood`, return `−value` on success and `+∞` on any error (a
panic inside the closure propagates). -/
def fit_objfn {d n p k : ℕ} (L : LinAlgLib) (fx : Matrix (Fin n) (Fin p) ℚ)
    (x_distances : DistanceMatrix n d) (ytrain : NormalizedMatrix n k)
    (xv : Fin d → ℚ) : Outcome F64Val :=
  match reduced_likelihood L (fun j => L.powf 10 (xv j)) fx x_distances ytrain with
  | .ok r => .ok (.fin (-r.1))
  | .err _ => .ok .inf
  | .panic => .panic

/-- The inequality constraints registered in `fit` (lines 102–120).  For
each input dimension the loop registers a `cstr_low`/`cstr_up` pair with
tolerance `1e-2`, intended as `−x[i] − 6 ≤ 0` and `x[i] − 2 ≤ 0`; but the
closures are not `move` closures, so they capture the single shared
variable `index` by reference, and nlopt invokes them only during
`optimizer.optimize(...)` (line 126), after the loop has left
`index = d − 1`.  Every registered constraint therefore reads the *last*
coordinate: `2d` copies of `−x[d−1] − 6` and `x[d−1] − 2`, and coordinates
`0..d−2` are unconstrained.  (The comment at line 104 records the author
fighting exactly this capture problem.)  nlopt treats `c(x) ≤ 0` within the
tolerance as satisfied. -/
def fit_constraints (d : ℕ) : List (((Fin d → ℚ) → ℚ) × ℚ) :=
  (List.finRange d).flatMap fun i =>
    let index : Fin d := ⟨d - 1, Nat.sub_lt i.pos Nat.one_pos⟩
    [(fun x => -x index - 6, 1e-2), (fun x => x index - 2, 1e-2)]

/-- The external nlopt COBYLA optimizer, modelled as an oracle: it receives
the objective, the registered inequality constraints (with tolerances), the
initial step (`0.5`), `maxeval` (`10·d`) and the initial point, and yields a
success flag together with the final parameter vector (the Rust call mutates
`theta_vec` in place and returns a `Result`). -/
def OptOracle (d : ℕ) : Type :=
  ((Fin d → ℚ) → Outcome F64Val) → List (((Fin d → ℚ) → ℚ) × ℚ) → ℚ → ℕ →
    (Fin d → ℚ) → Bool × (Fin d → ℚ)

/-- Method `GpHyperParams::fit(x, y)` (lines 67–139): normalize the training data,
build the distance matrix on the normalized inputs and the basis `fx` on the
raw inputs, run COBYLA from `log10(θ₀)` under the registered constraints
(see `fit_constraints`),
*ignore* an optimizer error (it is only printed), map the final vector back
through `10^·`, rerun `reduced_likelihood` at the optimum (its error
propagates through `?`), and assemble the `GaussianProcess`. -/
def GpHyperParams.fit {Mean : Type} {d p n k : ℕ} (L : LinAlgLib)
    (ev : RegressionEval Mean d p) (opt : OptOracle d) (hp : GpHyperParams Mean)
    (x : Matrix (Fin n) (Fin d) ℚ) (y : Matrix (Fin n) (Fin k) ℚ) :
    Outcome (GaussianProcess Mean n d p k) :=
  let xtrain := NormalizedMatrix.make L x
  let ytrain := NormalizedMatrix.make L y
  let theta0 : Fin d → ℚ := fun _ => hp.theta
  let x_distances := DistanceMatrix.make xtrain.data
  let fx := ev hp.mean n x
  let init : Fin d → ℚ := fun j => L.log10 (theta0 j)
  let res := opt (fit_objfn L fx x_distances ytrain) (fit_constraints d) (1 / 2) (10 * d) init
  -- `if let Err(e) = res { println!("ERROR OPTIM in GP {:?}", e) }`: ignored
  let opt_theta : Fin d → ℚ := fun j => L.powf 10 (res.2 j)
  Outcome.bind (reduced_likelihood L opt_theta fx x_distances ytrain) fun ri =>
  .ok { theta := opt_theta
        mean := hp.mean
        inner_params := ri.2
        xtrain := xtrain
        ytrain := ytrain }

/-- Modelled from the spec: the error enumeration `MoeError` of the absent
`moe/src/errors.rs`.  `InvalidValueError(String)` is the variant used by the
validation in `moe/src/parameters.rs`; the other variants are irrelevant to
it and collapsed into `Other`. -/
inductive MoeError where
  | InvalidValueError (msg : String)
  | Other
  deriving DecidableEq

/-- Modelled from the spec: the enum `Recombination` of the absent
`moe/src/types.rs`, §4.5 — `Hard`, or `Smooth` with an optional heaviness factor (the
constructors in `moe/src/parameters.rs` use `Recombination::Smooth(Some(_))`
and `Recombination::Hard`). -/
inductive Recombination where
  | Hard
  | Smooth (heaviness : Option ℚ)
  deriving DecidableEq

/-- Modelled from the spec: the enum `ThetaTuning`, re-exported from the absent
`egobox_gp` crate — per the spec §4.5 and its pattern matches in
`moe/src/parameters.rs`, `Optimized { init, bounds }` or `Fixed`. -/
inductive ThetaTuning where
  | Optimized (init : List ℚ) (bounds : List (ℚ × ℚ))
  | Fixed (theta : List ℚ)
  deriving DecidableEq

/-- Enum `GpType<F>`: full or sparse GP.  The sparse payload types (method and
inducing points, from the absent `egobox_gp` crate) are type parameters. -/
inductive GpType (M I : Type) where
  | FullGp
  | SparseGp (sparse_method : M) (inducings : I)

/-- Struct `GpMixtureValidParams<F, R>`: the checked mixture-of-experts
configuration.  The regression/correlation flag sets, the clustering presets
`gmm`/`gmx` and the RNG are not inspected by the validation and are kept as
type parameters (`S`, `G`, `X`, `R`). -/
structure GpMixtureValidParams (M I S G X R : Type) where
  gp_type : GpType M I
  n_clusters : ℕ
  recombination : Recombination
  regression_spec : S
  correlation_spec : S
  theta_tuning : ThetaTuning
  kpls_dim : Option ℕ
  n_start : ℕ
  gmm : Option G
  gmx : Option X
  rng : R

/-- Struct `GpMixtureParams<F, R>`: the unchecked builder, a newtype around the
valid-params record. -/
structure GpMixtureParams (M I S G X R : Type) where
  val : GpMixtureValidParams M I S G X R

/-- Method `ParamGuard::check_ref` for `GpMixtureParams` (lines 299–308): the only
validation is `kpls_dim == Some(0)`, which is rejected with
`InvalidValueError`; everything else is returned as checked. -/
def GpMixtureParams.check_ref {M I S G X R : Type} (p : GpMixtureParams M I S G X R) :
    Except MoeError (GpMixtureValidParams M I S G X R) :=
  match p.val.kpls_dim with
  | some dim =>
      if dim = 0 then
        .error (.InvalidValueError "`kpls_dim` canot be 0!")
      else .ok p.val
  | none => .ok p.val

/-- Method `ParamGuard::check` (lines 310–313): `check_ref` then hand out the inner
record. -/
def GpMixtureParams.check {M I S G X R : Type} (p : GpMixtureParams M I S G X R) :
    Except MoeError (GpMixtureValidParams M I S G X R) :=
  match p.check_ref with
  | .error e => .error e
  | .ok _ => .ok p.val

/-- A concrete library in which every factorization succeeds: `exp` is the
constant 1, `powf` returns its exponent, Cholesky returns its input, the
triangular solves return their right-hand side, QR returns the input and an
identity R-factor, and the singular values are `[1, 1]`. -/
def WLib : LinAlgLib where
  exp := fun _ => 1
  powf := fun _ e => e
  log10 := fun q => q
  sqrt := fun q => q
  cholesky := fun _ m => some m
  solveLower := fun _ _ _ b => some b
  solveUpper := fun _ _ _ b => some b
  qr := fun _ _ m => some (m, 1)
  svd := fun _ _ _ => some [1, 1]

/-- Library `WLib` with a failing Cholesky factorization. -/
def WLibCholFail : LinAlgLib :=
  { WLib with cholesky := fun _ _ => none }

/-- A 1-point, 1-feature, 1-output training configuration. -/
def Wfx : Matrix (Fin 1) (Fin 1) ℚ := fun _ _ => 1

/-- The (empty) distance matrix of a single training point. -/
def Wxd : DistanceMatrix 1 1 := ⟨[]⟩

/-- Normalized training outputs `[[2]]` with mean 0 and std 1. -/
def Wyt : NormalizedMatrix 1 1 := ⟨fun _ _ => 2, fun _ => 0, fun _ => 1⟩

/-- A log-space candidate point. -/
def Wxv : Fin 1 → ℚ := fun _ => 0

/-- A configuration with `n_clusters = 0` and `n_start = 0` (both outside
the ranges enumerated by the spec) and no `kpls_dim`. -/
def C9cfg : GpMixtureParams Unit Unit Unit Unit Unit Unit :=
  ⟨{ gp_type := .FullGp
     n_clusters := 0
     recombination := .Hard
     regression_spec := ()
     correlation_spec := ()
     theta_tuning := .Fixed []
     kpls_dim := none
     n_start := 0
     gmm := none
     gmx := none
     rng := () }⟩

/-- The inner parameters produced by the `WLib` run on the 1-point
configuration. -/
def Wip : GpInnerParams 1 1 1 where
  sigma2 := fun _ => 0
  beta := fun _ _ => 2
  gamma := fun _ _ => 0
  r_chol := fun i j => if i = j then 1 + nugget else 0
  ft := fun _ _ => 1
  ft_qr_r := 1

/-- A library driving `reduced_likelihood` into the ill-conditioning branch
with a well-conditioned `F` (square inputs get singular values `[1, 1e-11]`,
rectangular ones `[1, 1]`). -/
def W3Lib : LinAlgLib :=
  { WLib with svd := fun a b _ => if a = b then some [1, 1e-11] else some [1, 1] }

/-- Library `W3Lib` but with `F` ill conditioned: a rectangular SVD yields
`[1e16, 1]`. -/
def W3LibBad : LinAlgLib :=
  { WLib with svd := fun a b _ => if a = b then some [1, 1e-11] else some [1e16, 1] }

/-- Two training points, one feature: `F` is a 2×1 column of ones. -/
def W3fx : Matrix (Fin 2) (Fin 1) ℚ := fun _ _ => 1

/-- The single-pair distance matrix of the two training points. -/
def W3xd : DistanceMatrix 2 1 := ⟨[((0, 1), fun _ => 1)]⟩

/-- Normalized 2×1 training outputs. -/
def W3yt : NormalizedMatrix 2 1 := ⟨fun _ _ => 2, fun _ => 0, fun _ => 1⟩

/-- A trained GP on one point with constant-type mean (`Mean = Unit`). -/
def W7gp : GaussianProcess Unit 1 1 1 1 where
  theta := fun _ => 1
  mean := ()
  inner_params := Wip
  xtrain := ⟨fun _ _ => 0, fun _ => 0, fun _ => 1⟩
  ytrain := Wyt

/-- A matching 1×1 query. -/
def W7x : Matrix (Fin 1) (Fin 1) ℚ := fun _ _ => 0

/-- The variance matrix `predict_variances` returns on `W7gp`/`W7x`. -/
def W7M : Matrix (Fin 1) (Fin 1) ℚ := fun _ _ => 0

/-- A 1×2 query against the width-1 training set. -/
def W8x : Matrix (Fin 1) (Fin 2) ℚ := fun _ _ => 0

/-- The constant-basis `eval` dictionary for `Mean = Unit`. -/
def W8ev : RegressionEval Unit 1 1 := fun _ _ x => constant x

/-- A GP whose regression basis has two columns and is *not* the constant
basis: `eval` returns the row `[1, 5]`. -/
def W4ev : RegressionEval Unit 1 2 := fun _ _ _ => fun _ j => if j = 0 then 1 else 5

/-- A trained GP with the two-column basis. -/
def W4gp : GaussianProcess Unit 1 1 2 1 where
  theta := fun _ => 1
  mean := ()
  inner_params :=
    { sigma2 := fun _ => 1
      beta := fun _ _ => 0
      gamma := fun _ _ => 0
      r_chol := fun _ _ => 1
      ft := fun _ _ => 1
      ft_qr_r := fun _ _ => 1 }
  xtrain := ⟨fun _ _ => 0, fun _ => 0, fun _ => 1⟩
  ytrain := Wyt

/-- A 1×1 all-zero training input (and output). -/
def W10x : Matrix (Fin 1) (Fin 1) ℚ := fun _ _ => 0

/-- The hyper-parameter record with the default starting theta `1e-2`. -/
def W10hp : GpHyperParams Unit := { theta := 1e-2, mean := () }

/-- The inner parameters of the concrete `WLib` fit on `W10x`. -/
def W10ip : GpInnerParams 1 1 1 where
  sigma2 := fun _ => 0
  beta := fun _ _ => 0
  gamma := fun _ _ => 0
  r_chol := fun i j => if i = j then 1 + nugget else 0
  ft := fun _ _ => 1
  ft_qr_r := 1

/-- The piecewise-monotone concrete `powf` used by the C6 witness:
`10^e` is modelled as `e` below `−6`, the constant `1e-6` on `[−6, 2)` and
`e + 98` from `2` on, so that `10^{−6} = 1e-6` and `10^2 = 100`. -/
def W6powf : ℚ → ℚ → ℚ := fun _ e => if e < -6 then e else if e < 2 then 1e-6 else e + 98

/-- Library `WLib` with the piecewise `powf`. -/
def W6L : LinAlgLib := { WLib with powf := W6powf }

/-- The log-space vector the C6 optimizer oracle returns: the first
coordinate `−50` is far outside the claimed `[−6, 2]` box, the last is `0`. -/
def W6badv : Fin 2 → ℚ := fun j => if j = 0 then -50 else 0

/-- A single training point with two input features. -/
def W62x : Matrix (Fin 1) (Fin 2) ℚ := fun _ _ => 0

/-- The constant-basis `eval` dictionary for two input features. -/
def W62ev : RegressionEval Unit 2 1 := fun _ _ x => constant x

/-- The GP assembled by the `W6L` fit whose optimizer returned `W6badv`. -/
def W62gp : GaussianProcess Unit 1 2 1 1 where
  theta := fun j => W6L.powf 10 (W6badv j)
  mean := W10hp.mean
  inner_params := W10ip
  xtrain := NormalizedMatrix.make W6L W62x
  ytrain := NormalizedMatrix.make W6L W10x

/-! ## Theorems -/

@[simp]
theorem Outcome.bind_ok {α β : Type} (a : α) (f : α → Outcome β) :
    Outcome.bind (.ok a) f = f a := rfl

@[simp]
theorem Outcome.bind_err {α β : Type} (e : EgoboxError) (f : α → Outcome β) :
    Outcome.bind (.err e) f = .err e := rfl

@[simp]
theorem Outcome.bind_panic {α β : Type} (f : α → Outcome β) :
    Outcome.bind (.panic : Outcome α) f = .panic := rfl

@[simp] theorem ofLinalg_some {α : Type} (a : α) : ofLinalg (some a) = .ok a := rfl

@[simp] theorem ofLinalg_none {α : Type} : ofLinalg (none : Option α) = .err .LinalgError := rfl

@[simp] theorem unwrapLib_some {α : Type} (a : α) : unwrapLib (some a) = .ok a := rfl

@[simp] theorem unwrapLib_none {α : Type} : unwrapLib (none : Option α) = .panic := rfl

/-- C9 counterexample: the claim says `check` yields a checked record *only
when* `n_clusters ≥ 1` and `n_start ≥ 1`; but this configuration with
`n_clusters = 0` and `n_start = 0` passes validation. -/
theorem C9_counterexample :
    C9cfg.check = .ok C9cfg.val ∧ C9cfg.val.n_clusters = 0 ∧ C9cfg.val.n_start = 0 :=
  ⟨rfl, rfl, rfl⟩

/-- C9 (amended): the only validation performed by `ParamGuard::check` /
`check_ref` on `GpMixtureParams` is the rejection of `kpls_dim = Some(0)`
with an `InvalidValueError`; every other configuration — regardless of
`n_clusters`, `n_start` or the `Smooth` heaviness — is returned as checked
unchanged. -/
theorem C9_check_rejects_exactly_kpls_dim_zero {M I S G X R : Type}
    (p : GpMixtureParams M I S G X R) :
    (p.check_ref = .error (.InvalidValueError "`kpls_dim` canot be 0!") ∨
      p.check_ref = .ok p.val) ∧
    (p.check_ref = .error (.InvalidValueError "`kpls_dim` canot be 0!") ↔
      p.val.kpls_dim = some 0) ∧
    (p.check = .error (.InvalidValueError "`kpls_dim` canot be 0!") ↔
      p.val.kpls_dim = some 0) ∧
    (p.check = .ok p.val ↔ p.val.kpls_dim ≠ some 0) := by
  unfold GpMixtureParams.check GpMixtureParams.check_ref
  rcases h : p.val.kpls_dim with _ | dim
  · simp
  · by_cases hd : dim = 0 <;> simp [hd]

/-- C2: for every candidate `x` handed to the optimizer, the objective of
`GpHyperParams::fit` evaluates `reduced_likelihood` at `θⱼ = 10^{xⱼ}`; if
that returns any error, the objective is `+∞`, and if it succeeds with value
`v`, the objective is `−v`. -/
theorem C2_objfn_propagation {d n p k : ℕ} (L : LinAlgLib)
    (fx : Matrix (Fin n) (Fin p) ℚ) (x_distances : DistanceMatrix n d)
    (ytrain : NormalizedMatrix n k) (xv : Fin d → ℚ) :
    (∀ e : EgoboxError,
      reduced_likelihood L (fun j => L.powf 10 (xv j)) fx x_distances ytrain = .err e →
        fit_objfn L fx x_distances ytrain xv = .ok .inf) ∧
    (∀ (v : ℚ) (ip : GpInnerParams n p k),
      reduced_likelihood L (fun j => L.powf 10 (xv j)) fx x_distances ytrain = .ok (v, ip) →
        fit_objfn L fx x_distances ytrain xv = .ok (.fin (-v))) := by
  constructor
  · intro e h
    simp [fit_objfn, h]
  · intro v ip h
    simp [fit_objfn, h]

/-- The `WLib` run of `reduced_likelihood` on the 1-point configuration
evaluates to value `0` with inner parameters `Wip` (shared by several
witnesses). -/
theorem WLib_rl_eval :
    reduced_likelihood WLib (fun j => WLib.powf 10 (Wxv j)) Wfx Wxd Wyt = .ok (0, Wip) := by
  simp [reduced_likelihood, buildCorrMatrix, WLib, Wfx, Wxd, Wyt, Wxv, Wip, kernelRow,
    Matrix.mul_apply, Fin.sum_univ_one, show ¬((1:ℚ) < 1e-10) from by norm_num]
  refine ⟨?_, ?_, ?_⟩ <;> funext a b <;>
    simp [Wfx, Matrix.mul_apply, Matrix.transpose_apply, Matrix.sub_apply, Fin.sum_univ_one]

/-- C2 witness: a failing run (Cholesky failure) maps to `+∞` and a
succeeding run with value `0` maps to `−0`. -/
theorem C2_witness :
    fit_objfn WLibCholFail Wfx Wxd Wyt Wxv = .ok .inf ∧
    fit_objfn WLib Wfx Wxd Wyt Wxv = .ok (.fin (-0)) :=
  ⟨(C2_objfn_propagation WLibCholFail Wfx Wxd Wyt Wxv).1 .LinalgError (by rfl),
   (C2_objfn_propagation WLib Wfx Wxd Wyt Wxv).2 0 Wip WLib_rl_eval⟩

/-- C1: on every run of `reduced_likelihood` in which the factorizations
succeed and the conditioning guard is not taken (so the function succeeds),
the returned scalar is `−(Σₖ σ²ₖ)·det_R` with `ρ = yt − Ft·β` from the
triangular-solve chain, `σ²ₖ = Σᵢ ρᵢₖ²/n`, and
`det_R = ∏ᵢ (L_r)ᵢᵢ^(2/n)` over the diagonal of the Cholesky factor of the
regularized correlation matrix. -/
theorem C1_reduced_likelihood_value {d n p k : ℕ} (L : LinAlgLib) (theta : Fin d → ℚ)
    (fx : Matrix (Fin n) (Fin p) ℚ) (xd : DistanceMatrix n d) (ytr : NormalizedMatrix n k)
    (r_chol : Matrix (Fin n) (Fin n) ℚ) (ft : Matrix (Fin n) (Fin p) ℚ)
    (qf : Matrix (Fin n) (Fin p) ℚ) (rf : Matrix (Fin p) (Fin p) ℚ)
    (s0 : ℚ) (srest : List ℚ)
    (yt : Matrix (Fin n) (Fin k) ℚ) (beta : Matrix (Fin p) (Fin k) ℚ)
    (gamma : Matrix (Fin n) (Fin k) ℚ)
    (hchol : L.cholesky n (buildCorrMatrix L theta xd) = some r_chol)
    (hft : L.solveLower n p r_chol fx = some ft)
    (hqr : L.qr n p ft = some (qf, rf))
    (hsvd : L.svd p p rf = some (s0 :: srest))
    (hcond : ¬ (srest.getLast?.getD s0 / s0 < 1e-10))
    (hyt : L.solveLower n k r_chol ytr.data = some yt)
    (hbeta : L.solveUpper p k rf (Matrix.transpose qf * yt) = some beta)
    (hgamma : L.solveUpper n k (Matrix.transpose r_chol) (yt - ft * beta) = some gamma) :
    reduced_likelihood L theta fx xd ytr =
      .ok (-(∑ j, (∑ i, ((yt - ft * beta) i j) ^ 2) / (n : ℚ)) *
            ∏ i, L.powf (r_chol i i) (2 / (n : ℚ)),
        { sigma2 := fun j => (∑ i, ((yt - ft * beta) i j) ^ 2) / (n : ℚ) * (ytr.std j) ^ 2
          beta := beta
          gamma := gamma
          r_chol := r_chol
          ft := ft
          ft_qr_r := rf }) := by
  simp [reduced_likelihood, hchol, hft, hqr, hsvd, hcond, hyt, hbeta, hgamma]

/-- C1 witness: the `WLib` run on the 1-point configuration, with every
hypothesis discharged at the concrete input. -/
theorem C1_witness :
    reduced_likelihood WLib (fun _ => 1) Wfx Wxd Wyt =
      .ok (-(∑ j, (∑ i, ((Wyt.data - Wfx * (Matrix.transpose Wfx * Wyt.data)) i j) ^ 2) /
              ((1 : ℕ) : ℚ)) *
            ∏ i, WLib.powf (buildCorrMatrix WLib (fun _ => 1) Wxd i i) (2 / ((1 : ℕ) : ℚ)),
        { sigma2 := fun j =>
            (∑ i, ((Wyt.data - Wfx * (Matrix.transpose Wfx * Wyt.data)) i j) ^ 2) /
              ((1 : ℕ) : ℚ) * (Wyt.std j) ^ 2
          beta := Matrix.transpose Wfx * Wyt.data
          gamma := Wyt.data - Wfx * (Matrix.transpose Wfx * Wyt.data)
          r_chol := buildCorrMatrix WLib (fun _ => 1) Wxd
          ft := Wfx
          ft_qr_r := 1 }) :=
  C1_reduced_likelihood_value WLib (fun _ => 1) Wfx Wxd Wyt
    (buildCorrMatrix WLib (fun _ => 1) Wxd) Wfx Wfx 1 1 [1]
    Wyt.data (Matrix.transpose Wfx * Wyt.data)
    (Wyt.data - Wfx * (Matrix.transpose Wfx * Wyt.data))
    (by simp [WLib]) (by simp [WLib]) (by simp [WLib]) (by simp [WLib])
    (by norm_num) (by simp [WLib]) (by simp [WLib]) (by simp [WLib])

/-- C3 (amended): whenever the singular-value ratio of the R-factor of
`QR(Ft)` is below `1e-10` (and the SVD of `F` itself succeeds), the function
returns an error and no inner parameters; the error is a
`LikelihoodComputationError` in *both* sub-cases — the same error kind, and
only the message distinguishes them: the incompatible-basis message exactly
when `cond(F) > 1e15`, the retryable try-another-theta message otherwise. -/
theorem C3_ill_conditioned_guard {d n p k : ℕ} (L : LinAlgLib) (theta : Fin d → ℚ)
    (fx : Matrix (Fin n) (Fin p) ℚ) (xd : DistanceMatrix n d) (ytr : NormalizedMatrix n k)
    (r_chol : Matrix (Fin n) (Fin n) ℚ) (ft : Matrix (Fin n) (Fin p) ℚ)
    (qf : Matrix (Fin n) (Fin p) ℚ) (rf : Matrix (Fin p) (Fin p) ℚ)
    (s0 : ℚ) (srest : List ℚ) (f0 : ℚ) (frest : List ℚ)
    (hchol : L.cholesky n (buildCorrMatrix L theta xd) = some r_chol)
    (hft : L.solveLower n p r_chol fx = some ft)
    (hqr : L.qr n p ft = some (qf, rf))
    (hsvd : L.svd p p rf = some (s0 :: srest))
    (hcond : srest.getLast?.getD s0 / s0 < 1e-10)
    (hsvdf : L.svd n p fx = some (f0 :: frest)) :
    reduced_likelihood L theta fx xd ytr =
      .err (.LikelihoodComputationError
        (if f0 / frest.getLast?.getD f0 > 1e15 then
          "F is too ill conditioned. Poor combination of regression model and observations."
        else "ft is too ill conditioned, try another theta again")) := by
  by_cases hf : f0 / frest.getLast?.getD f0 > 1e15 <;>
    simp [reduced_likelihood, hchol, hft, hqr, hsvd, hcond, hsvdf, hf]

/-- C3 witness: the concrete `W3Lib` run takes the guard and yields the
retryable message. -/
theorem C3_witness :
    reduced_likelihood W3Lib (fun _ => 1) W3fx W3xd W3yt =
      .err (.LikelihoodComputationError
        "ft is too ill conditioned, try another theta again") := by
  have h := C3_ill_conditioned_guard W3Lib (fun _ => 1) W3fx W3xd W3yt
    (buildCorrMatrix W3Lib (fun _ => 1) W3xd) W3fx W3fx 1 1 [1e-11] 1 [1]
    (by simp [W3Lib, WLib]) (by simp [W3Lib, WLib]) (by simp [W3Lib, WLib])
    (by simp [W3Lib, WLib]) (by norm_num) (by simp [W3Lib, WLib])
  simpa [show ¬ ((1e15 : ℚ) < 1) from by norm_num] using h

/-- C3 counterexample: the claim says the two guard outcomes are *two
distinct error kinds*; but on the code both sub-cases return the single
`LikelihoodComputationError` kind — the retry case and the
incompatible-basis case below differ only in the message, and their kinds
are equal. -/
theorem C3_counterexample :
    reduced_likelihood W3Lib (fun _ => 1) W3fx W3xd W3yt =
      .err (.LikelihoodComputationError
        "ft is too ill conditioned, try another theta again") ∧
    reduced_likelihood W3LibBad (fun _ => 1) W3fx W3xd W3yt =
      .err (.LikelihoodComputationError
        "F is too ill conditioned. Poor combination of regression model and observations.") ∧
    EgoboxError.kind
        (.LikelihoodComputationError "ft is too ill conditioned, try another theta again") =
      EgoboxError.kind
        (.LikelihoodComputationError
          "F is too ill conditioned. Poor combination of regression model and observations.") := by
  refine ⟨?_, ?_, rfl⟩ <;>
    simp [reduced_likelihood, buildCorrMatrix, W3Lib, W3LibBad, WLib, W3fx, W3xd, W3yt,
      kernelRow, show ((1e-11 : ℚ) < 1e-10) from by norm_num,
      show ((1e15 : ℚ) < 1e16) from by norm_num,
      show ¬ ((1e15 : ℚ) < 1) from by norm_num]

@[simp]
theorem castCols_self {m a : ℕ} (h : a = a) (x : Matrix (Fin m) (Fin a) ℚ) :
    castCols h x = x := rfl

/-- C7: every entry of a matrix returned by `predict_variances` is
nonnegative — the final `mapv` replaces any negative value by exactly 0. -/
theorem C7_variances_nonneg {Mean : Type} {n d p k m q : ℕ} (L : LinAlgLib)
    (gp : GaussianProcess Mean n d p k) (x : Matrix (Fin m) (Fin q) ℚ)
    (M : Matrix (Fin m) (Fin 1) ℚ) (h : predict_variances L gp x = .ok M)
    (i : Fin m) (j : Fin 1) : 0 ≤ M i j := by
  simp only [predict_variances, castCols_self] at h
  split at h
  case isFalse => simp at h
  case isTrue hq =>
    subst hq
    simp only [castCols_self] at h
    rcases hrt : L.solveLower n m gp.inner_params.r_chol
        (Matrix.transpose (compute_correlation L gp x)) with _ | rt
    · rw [hrt] at h; simp at h
    · rw [hrt] at h
      simp only [unwrapLib_some, Outcome.bind_ok] at h
      rcases hu : L.solveUpper p m (Matrix.transpose gp.inner_params.ft_qr_r)
          (fun a b => (Matrix.transpose gp.inner_params.ft * rt) a b -
            Matrix.transpose (constant x) 0 b) with _ | u
      · rw [hu] at h; simp at h
      · rw [hu] at h
        simp only [unwrapLib_some, Outcome.bind_ok] at h
        split at h
        case isFalse => simp at h
        case isTrue hk =>
          rw [Outcome.ok.injEq] at h
          subst h
          dsimp only
          split
          · exact le_refl 0
          · exact le_of_not_lt (by assumption)

/-- C7 witness: the concrete prediction succeeds and its entry is
nonnegative. -/
theorem C7_witness : (0 : ℚ) ≤ W7M 0 0 :=
  C7_variances_nonneg WLib W7gp W7x W7M
    (by
      simp [predict_variances, WLib, W7gp, W7x, W7M, Wip, compute_correlation,
        kernelRow, constant, Matrix.mul_apply, Matrix.transpose_apply, Fin.sum_univ_one]
      rfl)
    0 0

/-- C8 (amended): `predict_values` and `predict_variances` perform no
dimension check at all: a query whose column count differs from the training
width makes the ndarray arithmetic panic (shape mismatch), and no
`InvalidInput` error — indeed no `Result` at all — is ever returned. -/
theorem C8_mismatched_query_panics {Mean : Type} {n d p k m q : ℕ} (L : LinAlgLib)
    (ev : RegressionEval Mean d p) (gp : GaussianProcess Mean n d p k)
    (x : Matrix (Fin m) (Fin q) ℚ) (h : q ≠ d) :
    predict_values L ev gp x = .panic ∧ predict_variances L gp x = .panic := by
  constructor <;> [unfold predict_values; unfold predict_variances] <;> rw [dif_neg h]

/-- C8 witness: the concrete mismatched call panics in both predictors. -/
theorem C8_witness :
    predict_values WLib W8ev W7gp W8x = .panic ∧
    predict_variances WLib W7gp W8x = .panic :=
  C8_mismatched_query_panics WLib W8ev W7gp W8x (by decide)

/-- C8 counterexample: the claim says a mismatched query "terminates the
call by returning an InvalidInput error"; on this concrete mismatched call
neither predictor returns an error of any kind. -/
theorem C8_counterexample :
    (predict_values WLib W8ev W7gp W8x).isErr = false ∧
    (predict_variances WLib W7gp W8x).isErr = false := by
  constructor <;> simp [predict_values, predict_variances, Outcome.isErr]

/-- C5: for every trained GP and matching-width query, `predict_values`
returns exactly the spec's `(F(x)·β + r_θ(x,Xₜ)·γ)·std_Y + mean_Y`, where
the correlation is computed from the normalized query by (absolute) rowwise
componentwise differences against every training row, the kernel, and the
reshape — the sign of the difference is irrelevant because the kernel
squares it. -/
theorem C5_predict_values_spec {Mean : Type} {n d p k m : ℕ} (L : LinAlgLib)
    (ev : RegressionEval Mean d p) (gp : GaussianProcess Mean n d p k)
    (x : Matrix (Fin m) (Fin d) ℚ) :
    predict_values L ev gp x = .ok (spec_predict_mean L ev gp x) := by
  have hcorr : compute_correlation L gp x = fun i j =>
      kernelRow L gp.theta
        (fun l => |(x i l - gp.xtrain.mean l) / gp.xtrain.std l - gp.xtrain.data j l|) := by
    funext i j
    unfold compute_correlation kernelRow
    congr 1
    rw [neg_inj]
    refine Finset.sum_congr rfl fun l _ => ?_
    rw [sq_abs]
    ring
  unfold predict_values spec_predict_mean
  rw [dif_pos rfl]
  simp only [castCols_self, hcorr]

/-- C4 (amended): for a single-output trained GP (the reshape panics
otherwise) and a matching-width query on which the two triangular solves
succeed, `predict_variances` returns `σ²·(1 − colSumSq(rt) + colSumSq(u))`
clamped at 0 — where `lhs = Ftᵀ·rt − constant(x)ᵀ` is built from the
hardcoded *constant* basis (its single row of ones broadcasting over the `p`
rows), not from the GP's own regression basis. -/
theorem C4_variances_formula {Mean : Type} {n d p m : ℕ} (L : LinAlgLib)
    (gp : GaussianProcess Mean n d p 1) (x : Matrix (Fin m) (Fin d) ℚ)
    (rt : Matrix (Fin n) (Fin m) ℚ) (u : Matrix (Fin p) (Fin m) ℚ)
    (hrt : L.solveLower n m gp.inner_params.r_chol
      (Matrix.transpose (compute_correlation L gp x)) = some rt)
    (hu : L.solveUpper p m (Matrix.transpose gp.inner_params.ft_qr_r)
      (fun a b => (Matrix.transpose gp.inner_params.ft * rt) a b -
        Matrix.transpose (constant x) 0 b) = some u) :
    predict_variances L gp x =
      .ok (fun j _ =>
        let v := gp.inner_params.sigma2 0 *
          (1 - (∑ i, rt i j * rt i j) + ∑ i, u i j * u i j)
        if v < 0 then 0 else v) := by
  unfold predict_variances
  rw [dif_pos rfl]
  simp only [castCols_self, hrt, unwrapLib_some, Outcome.bind_ok, hu]
  simp only [dite_true]
  rfl

/-- C4 witness: a concrete evaluation of the amended formula on `W7gp`. -/
theorem C4_witness :
    predict_variances WLib W7gp W7x =
      .ok (fun j _ =>
        let v := W7gp.inner_params.sigma2 0 *
          (1 - (∑ i, Matrix.transpose (compute_correlation WLib W7gp W7x) i j *
                  Matrix.transpose (compute_correlation WLib W7gp W7x) i j) +
            ∑ i, (fun a b => (Matrix.transpose W7gp.inner_params.ft *
                    Matrix.transpose (compute_correlation WLib W7gp W7x)) a b -
                  Matrix.transpose (constant W7x) 0 b) i j *
              (fun a b => (Matrix.transpose W7gp.inner_params.ft *
                    Matrix.transpose (compute_correlation WLib W7gp W7x)) a b -
                  Matrix.transpose (constant W7x) 0 b) i j)
        if v < 0 then 0 else v) :=
  C4_variances_formula WLib W7gp W7x
    (Matrix.transpose (compute_correlation WLib W7gp W7x))
    (fun a b => (Matrix.transpose W7gp.inner_params.ft *
        Matrix.transpose (compute_correlation WLib W7gp W7x)) a b -
      Matrix.transpose (constant W7x) 0 b)
    (by simp [WLib]) (by simp [WLib])

/-- C4 counterexample: with a non-constant regression basis, the value
computed by `predict_variances` differs from the claim's formula built from
the GP's own basis — the code hardcodes the constant basis. -/
theorem C4_counterexample :
    predict_variances WLib W4gp W7x ≠ claim_predict_variances WLib W4ev W4gp W7x := by
  have hl : predict_variances WLib W4gp W7x = .ok (fun _ _ => 0) := by
    simp [predict_variances, WLib, W4gp, W7x, compute_correlation, kernelRow, constant,
      Matrix.mul_apply, Matrix.transpose_apply, Fin.sum_univ_one, Fin.sum_univ_two]
  have hr : claim_predict_variances WLib W4ev W4gp W7x = .ok (fun _ _ => 16) := by
    simp [claim_predict_variances, WLib, W4ev, W4gp, W7x, compute_correlation, kernelRow,
      Matrix.mul_apply, Matrix.transpose_apply, Fin.sum_univ_one, Fin.sum_univ_two]
    funext a b
    norm_num
  rw [hl, hr]
  intro hcontra
  rw [Outcome.ok.injEq] at hcontra
  have := congrFun (congrFun hcontra 0) 0
  norm_num at this

/-- C10: when the inner COBYLA run reports an error (success flag `false`),
`fit` does not propagate it: it continues with the parameter vector `v` as
left by the optimizer, returns `Err` exactly when the final
reduced-likelihood evaluation at `10^v` fails (and with that same error),
and otherwise returns the `GaussianProcess` assembled from that evaluation's
inner parameters. -/
theorem C10_fit_ignores_optimizer_error {Mean : Type} {d p n k : ℕ} (L : LinAlgLib)
    (ev : RegressionEval Mean d p) (hp : GpHyperParams Mean)
    (x : Matrix (Fin n) (Fin d) ℚ) (y : Matrix (Fin n) (Fin k) ℚ) (v : Fin d → ℚ) :
    (∀ e : EgoboxError,
      reduced_likelihood L (fun j => L.powf 10 (v j)) (ev hp.mean n x)
          (DistanceMatrix.make (NormalizedMatrix.make L x).data)
          (NormalizedMatrix.make L y) = .err e →
        GpHyperParams.fit L ev (fun _ _ _ _ _ => (false, v)) hp x y = .err e) ∧
    (∀ (val : ℚ) (ip : GpInnerParams n p k),
      reduced_likelihood L (fun j => L.powf 10 (v j)) (ev hp.mean n x)
          (DistanceMatrix.make (NormalizedMatrix.make L x).data)
          (NormalizedMatrix.make L y) = .ok (val, ip) →
        GpHyperParams.fit L ev (fun _ _ _ _ _ => (false, v)) hp x y =
          .ok { theta := fun j => L.powf 10 (v j)
                mean := hp.mean
                inner_params := ip
                xtrain := NormalizedMatrix.make L x
                ytrain := NormalizedMatrix.make L y }) := by
  constructor
  · intro e h
    simp [GpHyperParams.fit, h]
  · intro val ip h
    simp [GpHyperParams.fit, h]

/-- The reduced-likelihood run underlying the succeeding `fit` of the C10
witness. -/
theorem W10_rl_eval :
    reduced_likelihood WLib (fun j => WLib.powf 10 (Wxv j)) (W8ev () 1 W10x)
        (DistanceMatrix.make (NormalizedMatrix.make WLib W10x).data)
        (NormalizedMatrix.make WLib W10x) = .ok (0, W10ip) := by
  simp [reduced_likelihood, buildCorrMatrix, DistanceMatrix.make, NormalizedMatrix.make,
    WLib, W8ev, constant, W10x, Wxv, W10ip, kernelRow, Matrix.mul_apply, Fin.sum_univ_one,
    List.finRange, show ¬((1 : ℚ) < 1e-10) from by norm_num]
  refine ⟨?_, ?_, ?_⟩ <;> funext a b <;>
    simp [constant, W10x, W8ev, Matrix.mul_apply, Matrix.transpose_apply, Matrix.sub_apply,
      Fin.sum_univ_one]

/-- C10 witness: with the optimizer reporting an error, the failing final
evaluation surfaces as the `fit` error, and the succeeding one yields the
assembled GP. -/
theorem C10_witness :
    GpHyperParams.fit WLibCholFail W8ev (fun _ _ _ _ _ => (false, Wxv)) W10hp W10x W10x =
      .err .LinalgError ∧
    GpHyperParams.fit WLib W8ev (fun _ _ _ _ _ => (false, Wxv)) W10hp W10x W10x =
      .ok { theta := fun j => WLib.powf 10 (Wxv j)
            mean := W10hp.mean
            inner_params := W10ip
            xtrain := NormalizedMatrix.make WLib W10x
            ytrain := NormalizedMatrix.make WLib W10x } :=
  ⟨(C10_fit_ignores_optimizer_error WLibCholFail W8ev W10hp W10x W10x Wxv).1 .LinalgError
      (by
        simp [reduced_likelihood, buildCorrMatrix, DistanceMatrix.make,
          NormalizedMatrix.make, WLibCholFail, WLib, List.finRange]),
   (C10_fit_ignores_optimizer_error WLib W8ev W10hp W10x W10x Wxv).2 0 W10ip W10_rl_eval⟩

/-- C6 (code bug): the constraints `fit` registers all read the last
coordinate only, so with two input dimensions the log-space vector
`(−50, 0)` satisfies every registered constraint within its tolerance even
though its first coordinate is far outside the claimed `[−6, 2]` box; the
fit whose optimizer returns it stores `θ*₀ = 10^{−50} < 1e-6`, outside the
claimed `[1e−6, 1e2]` (the last conjunct anchors `10^{−6} = 1e-6` in this
model). -/
theorem C6_constraints_read_only_last_coordinate :
    (∀ c ∈ fit_constraints 2, c.1 W6badv ≤ c.2) ∧
    W6badv 0 = -50 ∧
    GpHyperParams.fit W6L W62ev (fun _ _ _ _ _ => (false, W6badv)) W10hp W62x W10x =
      .ok W62gp ∧
    W62gp.theta 0 < 1e-6 ∧ W6powf 10 (-6) = 1e-6 := by
  refine ⟨?_, rfl, ?_, ?_, ?_⟩
  · intro c hc
    unfold fit_constraints at hc
    obtain ⟨i, -, hmem⟩ := List.mem_flatMap.1 hc
    simp only [List.mem_cons, List.not_mem_nil, or_false] at hmem
    rcases hmem with rfl | rfl <;> norm_num [W6badv]
  · simp [GpHyperParams.fit, reduced_likelihood, buildCorrMatrix, DistanceMatrix.make,
      NormalizedMatrix.make, W6L, W62gp, WLib, W62ev, constant, W62x, W6badv, W10ip, W10hp,
      kernelRow, Matrix.mul_apply, Fin.sum_univ_one, List.finRange,
      show ¬((1 : ℚ) < 1e-10) from by norm_num]
    refine ⟨?_, ?_, ?_⟩ <;> funext a b <;>
      simp [constant, W62x, W10x, W62ev, Matrix.mul_apply, Matrix.transpose_apply,
        Matrix.sub_apply, Fin.sum_univ_one]
  · norm_num [W62gp, W6L, WLib, W6powf, W6badv]
  · norm_num [W6powf]
